import Mathlib

/- Shallow embedding of `pyc.py`, a compiler translating a statically
annotated subset of Python into C source text.  The embedding follows the
Python source function by function:

  * Python `ast` nodes are the inductive types `Expr`, `Stmt` below; a
    numeric literal `ast.Num` is carried as the text `str(n)` of its value
    (Python integer representations contain no dot, float representations do,
    which is all `pyc.py` ever inspects about a number).
  * `FunctionCompiler.locals` and `ModuleCompiler.globals` are association
    lists from strings to the stored `ast` values (`Binding`): `ast.arg`
    nodes for parameters, `ast.AnnAssign` nodes for annotated declarations,
    `ast.FunctionDef` nodes for functions.  Python dict update semantics
    (overwrite in place, insertion order kept) are given by `dictInsert`.
  * Every Python exception the code can raise is a constructor of `Err`:
    `CompileError`, the `LookupError` escape hatches, the `NameError` raised
    when the code references the undefined identifiers `CompilerError`,
    `imported_modules` and `fn_name`, the `TypeError` raised by
    `str + None` concatenation and by `ast.dump(None)`, the IO failure of
    `open()` on a missing module file, and `RecursionError` standing for
    exhaustion of the explicit recursion fuel every recursive definition
    threads (all theorems below use fuel far above the depth of the
    programs they mention).
  * `CompileError.__init__` prefixes messages with `lineno:col`; source
    positions are not modelled, so that prefix is dropped.  Where a message
    interpolates `str(node)` of an ast object, CPython prints a
    representation containing a memory address; the embedding replaces it
    with the stable text `<_ast.Kind object>` (`pyReprE` / `pyReprB`), and
    `ast.dump(...)` interpolations are abbreviated by `dumpE`.  No claim
    below depends on those placeholder substrings beyond their stability.
  * String literals in this file write a literal brace as the escape
    `\x7b` / `\x7d`.
-/

namespace Pyc

/-- Python type name for integers (`PYTYPE_INT` in the source). -/
def PYTYPE_INT : String := "int"

/-- C type for Python ints (`CTYPE_INT`). -/
def CTYPE_INT : String := "int32_t"

/-- Python type name for strings (`PYTYPE_STR`). -/
def PYTYPE_STR : String := "str"

/-- C type for Python strings (`CTYPE_STR`). -/
def CTYPE_STR : String := "char*"

/-- Python type name for `NoneType` (`PYTYPE_NONE`). -/
def PYTYPE_NONE : String := "NoneType"

/-- C type for `NoneType` (`CTYPE_NONE`). -/
def CTYPE_NONE : String := "void"

/-- The `BUILTIN_TYPES` table mapping Python type names to C type names. -/
def builtinTypes : List (String × String) :=
  [(PYTYPE_INT, CTYPE_INT), (PYTYPE_STR, CTYPE_STR), (PYTYPE_NONE, CTYPE_NONE)]

/-- The `MOD_PREFIX` constant. -/
def modPfx : String := "PYMOD_"

/-- The `MOD_INIT_SUFFIX` constant. -/
def modInitSfx : String := "_INIT"

/-- The `DOT` constant: how dots of Python references are written in C. -/
def dotSep : String := "_DOT_"

/-- Association-list lookup, first binding wins (Python dicts never hold a
key twice, so this agrees with dict lookup for the lists built below). -/
def alookup {α : Type} : List (String × α) → String → Option α
  | [], _ => none
  | p :: rest, k => if p.1 == k then some p.2 else alookup rest k

/-- Python dict assignment `d[k] = v`: overwrite in place when the key is
present, append otherwise. -/
def dictInsert {α : Type} (d : List (String × α)) (k : String) (v : α) :
    List (String × α) :=
  if (alookup d k).isSome then
    d.map (fun p => if p.1 == k then (k, v) else p)
  else
    d ++ [(k, v)]

/-- Python membership test `k in d` on a dict. -/
def dictContains {α : Type} (d : List (String × α)) (k : String) : Bool :=
  (alookup d k).isSome

/-- Python `hex(n)` for a non-negative number: `0x` followed by lowercase
hexadecimal digits, `hex(0) = "0x0"`. -/
def pyHex (n : Nat) : String :=
  "0x" ++ String.mk (Nat.toDigits 16 n)

/-- Python `s.replace(".", "/")` as used to turn a module path into a file
path. -/
def replaceDots (s : String) : String :=
  String.mk (s.data.map (fun c => if c == '.' then '/' else c))

/-- Python `s.replace(chr(34), backslash-quote)` used by `visit_Assign` when
formatting a string constant into a quoted C literal. -/
def pyEscapeQuotes (s : String) : String :=
  s.foldl (fun acc c => if c == '"' then acc ++ "\\\"" else acc.push c) ""

/-- Comparison operator nodes (`ast.Eq`, `ast.NotEq`, `ast.Lt`, `ast.Gt`);
these are the operators the claims mention.  Other Python comparison
operators would reach the same fallback paths as `ne` does outside the
string case. -/
inductive CmpOp
  | eq
  | ne
  | lt
  | gt
deriving Repr, DecidableEq

/-- Binary arithmetic operator nodes handled by the source (`ast.Add`). -/
inductive BinOpK
  | add
deriving Repr, DecidableEq

/-- Boolean operator nodes (`ast.And`, `ast.Or`). -/
inductive BoolOpK
  | andK
  | orK
deriving Repr, DecidableEq

/-- Expression nodes of the Python `ast` module used by `pyc.py`.  An
`ast.Compare` node always carries at least one operator/comparator pair
(guaranteed by the Python parser), so it is modelled as a first pair plus
the list of remaining pairs.  `nameConst` carries `True` / `False` /
`None` as `some true` / `some false` / `none`. -/
inductive Expr
  | num (n : String)
  | str (s : String)
  | name (id : String)
  | nameConst (v : Option Bool)
  | call (func : Expr) (args : List Expr)
  | binop (left : Expr) (op : BinOpK) (right : Expr)
  | boolop (op : BoolOpK) (values : List Expr)
  | compare (left : Expr) (first : CmpOp × Expr) (rest : List (CmpOp × Expr))
  | attr (value : Expr) (ident : String)
deriving Repr

/-- One `ast.alias` of an `import` statement: the imported module name and
the optional `as` name. -/
structure ImpAlias where
  name : String
  asname : Option String
deriving Repr

/-- A target of an `ast.Assign`: a plain name, or an attribute target
(which `visit_Assign` rejects). -/
inductive AssignTarget
  | nameT (id : String)
  | attrT
deriving Repr

/-- Statement nodes of the Python `ast` module used by `pyc.py`.  An
`ast.Assign` carries its first target and the list of any further targets
(the Python parser guarantees at least one).  `annAssign`'s value is
optional exactly as in the `ast` (a bare `x: int` has none).  `funcDef`'s
`decorated` records whether `decorator_list` is non-empty. -/
inductive Stmt
  | annAssign (target : String) (ann : Expr) (value : Option Expr)
  | assign (target : AssignTarget) (extra : List AssignTarget) (value : Expr)
  | ifS (test : Expr) (body : List Stmt) (orelse : List Stmt)
  | passS
  | retS (value : Option Expr)
  | impS (names : List ImpAlias)
  | exprS (value : Expr)
  | funcDef (name : String) (args : List (String × Option Expr))
      (ret : Option Expr) (body : List Stmt) (decorated : Bool)
deriving Repr

/-- The `ast` values stored in `FunctionCompiler.locals` and
`ModuleCompiler.globals`: `ast.arg` parameter nodes, `ast.AnnAssign`
declaration nodes (the synthetic `__name__` declaration has no target and
no value), and `ast.FunctionDef` nodes. -/
inductive Binding
  | argB (name : String) (ann : Option Expr)
  | annB (target : String) (ann : Expr) (value : Option Expr)
  | funcB (name : String) (args : List (String × Option Expr))
      (ret : Option Expr) (body : List Stmt)
deriving Repr

/-- Every Python exception `pyc.py` can raise, including the ones that are
slips in the source (undefined identifiers, `str + None`). -/
inductive Err
  | compileError (msg : String)
  | lookupError (msg : String)
  | keyError (msg : String)
  | nameError (ident : String)
  | typeError (msg : String)
  | ioError (filename : String)
  | recursionError
deriving Repr, DecidableEq

/-- Which `Err`s a Python `except LookupError` clause catches (`KeyError`
is a subclass of `LookupError`). -/
def Err.isLookup : Err → Bool
  | .lookupError _ => true
  | .keyError _ => true
  | _ => false

/-- Stable stand-in for CPython `str(node)` of an expression node, whose
real text contains a memory address. -/
def pyReprE : Expr → String
  | .num _ => "<_ast.Num object>"
  | .str _ => "<_ast.Str object>"
  | .name _ => "<_ast.Name object>"
  | .nameConst _ => "<_ast.NameConstant object>"
  | .call _ _ => "<_ast.Call object>"
  | .binop _ _ _ => "<_ast.BinOp object>"
  | .boolop _ _ => "<_ast.BoolOp object>"
  | .compare _ _ _ => "<_ast.Compare object>"
  | .attr _ _ => "<_ast.Attribute object>"

/-- Stable stand-in for CPython `str(node)` of a stored binding node. -/
def pyReprB : Binding → String
  | .argB _ _ => "<_ast.arg object>"
  | .annB _ _ _ => "<_ast.AnnAssign object>"
  | .funcB _ _ _ _ => "<_ast.FunctionDef object>"

/-- Abbreviated `ast.dump` rendering used only inside error message text. -/
def dumpE : Expr → String
  | .num n => "Num(n=" ++ n ++ ")"
  | .str s => "Str(s=" ++ s ++ ")"
  | .name id => "Name(id=" ++ id ++ ")"
  | .nameConst none => "NameConstant(value=None)"
  | .nameConst (some true) => "NameConstant(value=True)"
  | .nameConst (some false) => "NameConstant(value=False)"
  | _ => "<node dump>"

/-- The `BUILTIN_FUNCS` registry: Python-visible name to the parsed
definition `def printf(s: str): pass`, whose `.name` attribute carries the
C-side name. -/
def builtinFuncs : List (String × Binding) :=
  [("print", .funcB "printf" [("s", some (.name "str"))] none [.passS])]

/-- The `.name` attribute read off a `BUILTIN_FUNCS` entry by
`_load_name`. -/
def bindingName : Binding → String
  | .funcB n _ _ _ => n
  | .annB t _ _ => t
  | .argB n _ => n

/-- The scope data a `FunctionCompiler` reads but never writes: its module
name and the `ModuleCompiler.globals` dict shared by every function of the
module. -/
structure Env where
  moduleName : String
  globals : List (String × Binding)

/-- The node a `FunctionCompiler` was built for: the whole module, or one
function definition. -/
inductive FCNode
  | moduleN (body : List Stmt)
  | funcN (name : String) (args : List (String × Option Expr))
      (ret : Option Expr) (body : List Stmt) (decorated : Bool)

/-- `FunctionCompiler._load_name` on a plain name: locals first, then the
module globals (with `PYMOD_<module>_DOT_` mangling), then
`BUILTIN_FUNCS`; otherwise the `LookupError` the source raises. -/
def loadNameStr (env : Env) (lo : List (String × Binding)) (k : String) :
    Except Err (String × Binding) :=
  match alookup lo k with
  | some b => Except.ok (k, b)
  | none =>
    match alookup env.globals k with
    | some b => Except.ok (modPfx ++ env.moduleName ++ dotSep ++ k, b)
    | none =>
      match alookup builtinFuncs k with
      | some b => Except.ok (bindingName b, b)
      | none => Except.error (Err.lookupError ("no such var `" ++ k ++ "`"))

/-- `FunctionCompiler._load_name` on an expression node: only `ast.Name`
resolves here; any other node kind raises the `unable to resolve`
`CompileError`. -/
def loadNameExpr (env : Env) (lo : List (String × Binding)) :
    Expr → Except Err (String × Binding)
  | .name id => loadNameStr env lo id
  | e =>
    Except.error (Err.compileError
      ("unable to resolve reference from node " ++ pyReprE e))

/-- `FunctionCompiler._pytype` on expression nodes, and inlined on the
binding a name resolves to (the source recurses through `_load_name`).
`ast.Num` gives `int`, `ast.Str` gives `str`, a name that is itself a
builtin type name gives that name, `None` gives `BUILTIN_TYPES[PYTYPE_NONE]`
(the C name `void`, exactly as the source does), a call defers to its
callee, a stored `AnnAssign` defers to its annotation, a stored
`FunctionDef` defers to its return annotation, a stored `ast.arg` and every
unhandled node raise the `BUG: cannot determine` `LookupError`. -/
def pytypeE (fuel : Nat) (env : Env) (lo : List (String × Binding)) (e : Expr) :
    Except Err (Option String) :=
  match fuel with
  | 0 => Except.error Err.recursionError
  | Nat.succ f =>
    match e with
    | .call fn _ => pytypeE f env lo fn
    | .num _ => Except.ok (some PYTYPE_INT)
    | .str _ => Except.ok (some PYTYPE_STR)
    | .name id =>
      if (alookup builtinTypes id).isSome then Except.ok (some id)
      else
        match loadNameStr env lo id with
        | Except.error e2 => Except.error e2
        | Except.ok (_, .annB _ ann _) => pytypeE f env lo ann
        | Except.ok (_, .funcB _ _ none _) => Except.ok none
        | Except.ok (_, .funcB _ _ (some r) _) => pytypeE f env lo r
        | Except.ok (_, .argB _ _) =>
          Except.error (Err.lookupError
            ("BUG: cannot determine python type for " ++ "<_ast.arg object>"))
    | .nameConst none => Except.ok (some (CTYPE_NONE))
    | e2 =>
      Except.error (Err.lookupError
        ("BUG: cannot determine python type for " ++ dumpE e2))

/-- `_pytype` applied to an optional node: Python `None` has type `None`
(the first branch of the source function). -/
def pytypeOpt (fuel : Nat) (env : Env) (lo : List (String × Binding)) :
    Option Expr → Except Err (Option String)
  | none => Except.ok none
  | some e => pytypeE fuel env lo e

/-- `_pytype` applied to a stored binding (the recursion the source reaches
through `_load_name`; see `pytypeE`). -/
def pytypeB (fuel : Nat) (env : Env) (lo : List (String × Binding)) :
    Binding → Except Err (Option String)
  | .annB _ ann _ => pytypeE fuel env lo ann
  | .funcB _ _ ret _ => pytypeOpt fuel env lo ret
  | .argB _ _ =>
    Except.error (Err.lookupError
      ("BUG: cannot determine python type for " ++ "<_ast.arg object>"))

/-- `BUILTIN_TYPES[pytype]`: indexing the dict raises `KeyError` when the
python type is `None` or unknown. -/
def ctypeFromPytype : Option String → Except Err String
  | none => Except.error (Err.keyError "None")
  | some t =>
    match alookup builtinTypes t with
    | some c => Except.ok c
    | none => Except.error (Err.keyError t)

/-- `FunctionCompiler._ctype` on an expression node. -/
def ctypeE (fuel : Nat) (env : Env) (lo : List (String × Binding)) (e : Expr) :
    Except Err String := do
  ctypeFromPytype (← pytypeE fuel env lo e)

/-- `FunctionCompiler._ctype` on a stored binding. -/
def ctypeB (fuel : Nat) (env : Env) (lo : List (String × Binding)) (b : Binding) :
    Except Err String := do
  ctypeFromPytype (← pytypeB fuel env lo b)

/-- `visit_Str`: lower a string literal to a C compound byte array with a
trailing zero byte, each byte written with Python `hex`. -/
def strLower (s : String) : String :=
  "(const char[])\x7b" ++
    String.intercalate ", "
      ((s.data ++ [Char.ofNat 0]).map (fun c => pyHex c.toNat)) ++
    "\x7d"

/-- `visit_Eq` / `visit_Gt` / `visit_Lt`; `ast.NotEq` has no visitor in the
source, so dispatching on it falls through to `generic_visit`, which raises
the `Unsupported ast node` `CompileError`. -/
def cmpopSrc : CmpOp → Except Err String
  | .eq => Except.ok "=="
  | .gt => Except.ok ">"
  | .lt => Except.ok "<"
  | .ne => Except.error (Err.compileError ("Unsupported ast node: " ++ "NotEq()"))

/-- `visit_Add`. -/
def binopSrc : BinOpK → String
  | .add => "+"

/-- `visit_And` / `visit_Or`. -/
def boolopSrc : BoolOpK → String
  | .andK => "&&"
  | .orK => "||"

/-- The `strcmp` comparison operator and expected literal chosen by
`visit_Compare` for string operands: `==`/`!=` against `0`, `==` against
`-1` for less-than, `==` against `1` for greater-than (the unsupported-op
branch is unreachable for the four operators modelled). -/
def strcmpCompExpect : CmpOp → String × String
  | .eq => ("==", "0")
  | .ne => ("!=", "0")
  | .lt => ("==", "-1")
  | .gt => ("==", "1")

/-- The type-agreement loop of `visit_Compare`: each comparator is typed
via `_load_name` when it is a name, directly otherwise, and must equal the
left type. -/
def checkComparators (fuel : Nat) (env : Env) (lo : List (String × Binding))
    (ltype : String) : List (CmpOp × Expr) → Except Err Unit
  | [] => Except.ok ()
  | (_, cmp) :: rest => do
    let rtype ← (match cmp with
      | .name id => do
          let (_, rv) ← loadNameExpr env lo (.name id)
          ctypeB fuel env lo rv
      | c => ctypeE fuel env lo c)
    if ltype != rtype then
      Except.error (Err.compileError "mismatched types in comparison")
    else
      checkComparators fuel env lo ltype rest

/-- The `node.func.id` attribute read when `visit_Call` formats its
unknown-function message (only reachable when the callee is a name). -/
def exprId : Expr → String
  | .name id => id
  | _ => ""

/-- The expression visitor of `FunctionCompiler` (`visit_Num`, `visit_Str`,
`visit_Name`, `visit_NameConstant`, `visit_Call`, `visit_BinOp`,
`visit_BoolOp`, `visit_Compare`; `ast.Attribute` has no visitor and reaches
`generic_visit`).  Expressions never mutate `locals`. -/
def visitExpr (fuel : Nat) (env : Env) (lo : List (String × Binding)) (e : Expr) :
    Except Err String :=
  match fuel with
  | 0 => Except.error Err.recursionError
  | Nat.succ f =>
    match e with
    | .num n => Except.ok n
    | .str s => Except.ok (strLower s)
    | .name id =>
      match loadNameStr env lo id with
      | Except.error e2 => Except.error e2
      | Except.ok (cname, _) => Except.ok cname
    | .nameConst (some true) => Except.ok "true"
    | .nameConst (some false) => Except.ok "false"
    | .nameConst none =>
      Except.error (Err.compileError
        ("could not compile constant `" ++ dumpE (.nameConst none) ++ "`"))
    | .call fn args =>
      (match loadNameExpr env lo fn with
      | Except.error e2 =>
        if e2.isLookup then
          Except.error (Err.compileError
            ("reference to unknown function `" ++ exprId fn ++ "`"))
        else Except.error e2
      | Except.ok (cname, b) =>
        match b with
        | .funcB _ _ _ _ => do
          let cargs ← args.mapM (visitExpr f env lo)
          Except.ok (cname ++ "(" ++ String.intercalate ", " cargs ++ ")")
        | b2 =>
          Except.error (Err.compileError
            ("call to non-function `" ++ exprId fn ++ "` of type `" ++
              pyReprB b2 ++ "`")))
    | .attr v i =>
      Except.error (Err.compileError
        ("Unsupported ast node: " ++ dumpE (.attr v i)))
    | .binop l op r => do
      let ls ← visitExpr f env lo l
      let rs ← visitExpr f env lo r
      Except.ok (ls ++ " " ++ binopSrc op ++ " " ++ rs)
    | .boolop op vals => do
      let vs ← vals.mapM (visitExpr f env lo)
      Except.ok (String.intercalate (" " ++ boolopSrc op ++ " ")
        (vs.map (fun v => "(" ++ v ++ ")")))
    | .compare left first rest => do
      let (_, leftVal) ← loadNameExpr env lo left
      let ltype ← ctypeB f env lo leftVal
      checkComparators f env lo ltype (first :: rest)
      if ltype == CTYPE_STR then
        if rest.isEmpty then do
          let ce := strcmpCompExpect first.1
          let ls ← visitExpr f env lo left
          let rs ← visitExpr f env lo first.2
          Except.ok ("strcmp(" ++ ls ++ ", " ++ rs ++ ") " ++ ce.1 ++ " " ++ ce.2)
        else
          Except.error (Err.compileError
            "string comparisons must be of exactly two items")
      else do
        let headS ← visitExpr f env lo left
        let parts ← (first :: rest).mapM (fun oc => do
          let opS ← cmpopSrc oc.1
          let cmpS ← visitExpr f env lo oc.2
          Except.ok (opS ++ " " ++ cmpS))
        Except.ok (String.intercalate " " (headS :: parts))

/-- Python `==` between a stored `locals` value and a type-name string, as
tested by `visit_Assign`.  The stored values are always `ast` node objects
(`ast.arg` or `ast.AnnAssign`), and in Python an object of those classes is
never equal to a `str`, so the test is constantly false — which makes the
`!=` guards in `visit_Assign` fire on every reassignment. -/
def bindingEqPyStr (_ : Binding) (_ : String) : Bool := false

/-- `_pytype(self.node)`: a module has type `int`; a function definition
defers to its return annotation (Python `None` when absent). -/
def pytypeNode (fuel : Nat) (env : Env) (lo : List (String × Binding)) :
    FCNode → Except Err (Option String)
  | .moduleN _ => Except.ok (some PYTYPE_INT)
  | .funcN _ _ ret _ _ => pytypeOpt fuel env lo ret

/-- How Python `str.format` prints an `Option String` holding either a type
name or Python `None`, inside error messages. -/
def fmtOpt : Option String → String
  | none => "None"
  | some s => s

mutual

/-- The statement visitor of `FunctionCompiler` (`visit_If`, `visit_Pass`,
`visit_Import`, `visit_Expr`, `visit_Return`, `visit_FunctionDef`,
`visit_Assign`, `visit_AnnAssign`).  `sn` is `self.node` (read by
`visit_Return` and `visit_FunctionDef`); the result pairs the returned
source text (`none` models a visitor returning Python `None`, as
`visit_Pass` does) with the updated `locals`. -/
def visitStmt (fuel : Nat) (env : Env) (sn : FCNode)
    (lo : List (String × Binding)) (s : Stmt) :
    Except Err (Option String × List (String × Binding)) :=
  match fuel with
  | 0 => Except.error Err.recursionError
  | Nat.succ f =>
    match s with
    | .ifS test body orelse => do
      let testSrc ← visitExpr f env lo test
      let (bodySrc, lo1) ← visitSeq f env sn lo body
      match orelse with
      | [] =>
        Except.ok (some ("if (" ++ testSrc ++ ") \x7b\n" ++ bodySrc ++
          "\n\x7d"), lo1)
      | _ => do
        let (orelseSrc, lo2) ← visitSeq f env sn lo1 orelse
        Except.ok (some ("if (" ++ testSrc ++ ") \x7b\n" ++ bodySrc ++
          "\n\x7d else \x7b\n" ++ orelseSrc ++ "\n\x7d"), lo2)
    | .passS => Except.ok (none, lo)
    | .impS names =>
      -- `visit_Import` returns inside its loop: the include line for the
      -- first alias only.
      match names with
      | [] => Except.ok (none, lo)
      | a :: _ =>
        Except.ok (some ("#include \"" ++ a.name ++ ".h\"\n"), lo)
    | .exprS e => do
      let src ← visitExpr f env lo e
      Except.ok (some (src ++ ";"), lo)
    | .retS v => do
      let ltype ← pytypeNode f env lo sn
      let rtype ← pytypeOpt f env lo v
      if ltype != rtype then
        Except.error (Err.compileError
          ("cannot return type `" ++ fmtOpt ltype ++
            "` from function with return type `" ++ fmtOpt rtype ++ "`"))
      else
        match v with
        | none =>
          -- `self.visit(None)` dispatches to `generic_visit`, whose message
          -- formatting calls `ast.dump(None)`, raising `TypeError`.
          Except.error (Err.typeError "expected AST, got NoneType")
        | some ve => do
          let vs ← visitExpr f env lo ve
          Except.ok (some ("return " ++ vs ++ ";"), lo)
    | .funcDef _ _ _ _ _ =>
      match sn with
      | .moduleN _ => Except.ok (none, lo)
      | _ =>
        Except.error (Err.compileError "Inner functions are not supported")
    | .annAssign target ann value =>
      if dictContains lo target then
        -- The source spells the exception class `CompilerError`, a name
        -- that does not exist: evaluating it raises `NameError`.
        Except.error (Err.nameError "CompilerError")
      else do
        let targetType ← ctypeB f env lo (.annB target ann value)
        let valueType ← (match value with
          | some ve => ctypeE f env lo ve
          | none => ctypeFromPytype none)
        if targetType != valueType then
          Except.error (Err.compileError
            ("type mismatch in assignment of " ++
              (match value with
               | some ve => pyReprE ve
               | none => "None") ++ " to " ++ pyReprE (.name target)))
        else
          let lo1 := dictInsert lo target (.annB target ann value)
          do
          let targetSrc ← visitExpr f env lo1 (.name target)
          let valueSrc ← (match value with
            | some ve => visitExpr f env lo1 ve
            | none => Except.error (Err.typeError "expected AST, got NoneType"))
          Except.ok (some (targetType ++ " " ++ targetSrc ++ " = " ++
            valueSrc ++ ";"), lo1)
    | .assign target extra value =>
      if !extra.isEmpty then
        Except.error (Err.compileError
          "Use of unsupported feature: multiple assignment")
      else
        match target with
        | .attrT =>
          Except.error (Err.compileError
            "Use of unsupported feature: attribute assignment")
        | .nameT tid =>
          match alookup lo tid with
          | none =>
            Except.error (Err.compileError
              ("Cannot assign to undeclared local var `" ++ tid ++ "`"))
          | some b =>
            match value with
            | .num n =>
              if !bindingEqPyStr b PYTYPE_INT then
                Except.error (Err.compileError
                  ("assignment of int to incompatible " ++ pyReprB b ++
                    " var " ++ tid))
              else if n.contains '.' then
                Except.error (Err.compileError
                  ("assignment of float to incompatible " ++ pyReprB b ++
                    " var " ++ tid))
              else
                Except.ok (some (tid ++ " = " ++ n ++ ";\n"), lo)
            | .str sv =>
              if !bindingEqPyStr b PYTYPE_STR then
                Except.error (Err.compileError
                  ("assignment of str to incompatible " ++ pyReprB b ++
                    " var `" ++ tid ++ "`"))
              else
                Except.ok (some (tid ++ " = \"" ++ pyEscapeQuotes sv ++
                  "\";\n"), lo)
            | ve =>
              Except.error (Err.compileError
                ("Unsupported assignment of type `" ++ pyReprE ve ++
                  "` to `" ++ tid ++ "` of type `" ++ pyReprB b ++ "`"))

/-- The body accumulation of `visit_If`: `body_src += self.visit(node)`.
When a visitor returns Python `None` (as `visit_Pass` does) the string
concatenation raises `TypeError`. -/
def visitSeq (fuel : Nat) (env : Env) (sn : FCNode)
    (lo : List (String × Binding)) (stmts : List Stmt) :
    Except Err (String × List (String × Binding)) :=
  match fuel with
  | 0 => Except.error Err.recursionError
  | Nat.succ f =>
    match stmts with
    | [] => Except.ok ("", lo)
    | s :: rest => do
      let (r, lo1) ← visitStmt f env sn lo s
      match r with
      | none => Except.error (Err.typeError "must be str, not NoneType")
      | some t => do
        let (ts, lo2) ← visitSeq f env sn lo1 rest
        Except.ok (t ++ ts, lo2)

end

/-- The body loop of `FunctionCompiler.compile`: each statement's source is
appended followed by a newline, but only when it is truthy (Python `None`
and the empty string are both skipped). -/
def topBody (fuel : Nat) (env : Env) (sn : FCNode)
    (lo : List (String × Binding)) (stmts : List Stmt) :
    Except Err (String × List (String × Binding)) :=
  match fuel with
  | 0 => Except.error Err.recursionError
  | Nat.succ f =>
    match stmts with
    | [] => Except.ok ("", lo)
    | s :: rest => do
      let (r, lo1) ← visitStmt f env sn lo s
      let piece := match r with
        | some t => if t == "" then "" else t ++ "\n"
        | none => ""
      let (ts, lo2) ← topBody f env sn lo1 rest
      Except.ok (piece ++ ts, lo2)

mutual

/-- Does a statement subtree contain an `ast.Return` node?  This is the
`ast.walk` loop of `_fn_ret_ctype`, which looks through nested blocks. -/
def stmtHasReturn : Stmt → Bool
  | .retS _ => true
  | .ifS _ body orelse => stmtsHaveReturn body || stmtsHaveReturn orelse
  | .funcDef _ _ _ body _ => stmtsHaveReturn body
  | _ => false

/-- `stmtHasReturn` over a statement list. -/
def stmtsHaveReturn : List Stmt → Bool
  | [] => false
  | s :: rest => stmtHasReturn s || stmtsHaveReturn rest

end

/-- `FunctionCompiler._fn_ret_ctype`: a function without a return
annotation returns `void` provided its whole subtree holds no `return`
statement, and raises the missing-annotation `CompileError` otherwise; with
an annotation the C type of the annotation is used, a `LookupError` there
being converted by a handler whose message formatting references the
undefined identifier `fn_name` (hence `NameError`). -/
def fnRetCtype (fuel : Nat) (env : Env) (lo : List (String × Binding))
    (name : String) (ret : Option Expr) (body : List Stmt) :
    Except Err String :=
  match ret with
  | none =>
    if stmtsHaveReturn body then
      Except.error (Err.compileError
        ("missing return type annotation for function `" ++ name ++ "`"))
    else
      Except.ok (CTYPE_NONE)
  | some r =>
    match ctypeE fuel env lo r with
    | Except.ok t => Except.ok t
    | Except.error e =>
      if e.isLookup then Except.error (Err.nameError "fn_name")
      else Except.error e

/-- The argument-signature loop of `FunctionCompiler.compile`: every
parameter needs a type annotation whose C type is known. -/
def argsSrcList (fuel : Nat) (env : Env) (lo : List (String × Binding)) :
    List (String × Option Expr) → Except Err (List String)
  | [] => Except.ok []
  | (n, ann) :: rest =>
    match ann with
    | none =>
      Except.error (Err.compileError
        ("missing type annotation for parameter `" ++ n ++ "`"))
    | some a =>
      match ctypeE fuel env lo a with
      | Except.error e =>
        if e.isLookup then
          Except.error (Err.compileError
            ("unknown type `" ++ dumpE a ++ "` for argument `" ++ n ++ "`"))
        else Except.error e
      | Except.ok ct => do
        let restS ← argsSrcList fuel env lo rest
        Except.ok ((ct ++ " " ++ n) :: restS)

/-- The statement list under a `FunctionCompiler`'s node. -/
def fcBody : FCNode → List Stmt
  | .moduleN body => body
  | .funcN _ _ _ body _ => body

/-- `FunctionCompiler.compile`: reject decorators, seed `locals` with the
parameters, emit the body, compute the return type (modules return
`int32_t`), build the C argument signature, resolve the C function name
(modules use `PYMOD_<name>_INIT`, functions resolve their own name through
`_load_name`), and wrap everything into one C function. -/
def fcCompile (fuel : Nat) (env : Env) (node : FCNode) : Except Err String := do
  (match node with
   | .funcN _ _ _ _ true =>
     Except.error (Err.compileError "function decorators are not supported")
   | _ => Except.ok ())
  let lo0 : List (String × Binding) := match node with
    | .funcN _ args _ _ _ =>
      args.foldl (fun d a => dictInsert d a.1 (.argB a.1 a.2)) []
    | .moduleN _ => []
  let (src, loF) ← topBody fuel env node lo0 (fcBody node)
  let retType ← (match node with
    | .moduleN _ => Except.ok CTYPE_INT
    | .funcN name _ ret body _ => fnRetCtype fuel env loF name ret body)
  let argsSrc ← (match node with
    | .moduleN _ => Except.ok ""
    | .funcN _ args _ _ _ => do
      let parts ← argsSrcList fuel env loF args
      Except.ok (String.intercalate ", " parts))
  let fnCname ← (match node with
    | .moduleN _ => Except.ok (modPfx ++ env.moduleName ++ modInitSfx)
    | .funcN name _ _ _ _ => do
      let (cname, _) ← loadNameStr env loF name
      Except.ok cname)
  Except.ok (retType ++ " " ++ fnCname ++ "(" ++ argsSrc ++ ") \x7b\n" ++
    src ++ "\x7d\n")

/-- The child statements of a statement, for the breadth-first `ast.walk`
traversal `ModuleCompiler.compile` runs to find `import` statements
(expressions never contain statements, so only statement children
matter). -/
def stmtChildren : Stmt → List Stmt
  | .ifS _ body orelse => body ++ orelse
  | .funcDef _ _ _ body _ => body
  | _ => []

/-- The first `ast.alias` of the first `ast.Import` node met by the
breadth-first walk of `ModuleCompiler.compile`, if any (`ast.walk` uses a
queue, so the traversal is breadth first).  The fuel bounds the number of
queue steps; all theorems below use fuel far above the size of their
programs. -/
def firstImport (fuel : Nat) (queue : List Stmt) : Option ImpAlias :=
  match fuel with
  | 0 => none
  | Nat.succ f =>
    match queue with
    | [] => none
    | s :: q =>
      match s with
      | .impS (a :: _) => some a
      | _ => firstImport f (q ++ stmtChildren s)

/-- `ModuleCompiler._initial_module_source`: the platform includes and the
`#define` of the module's `__name__` macro. -/
def initialModuleSource (moduleName dunderName : String) : String :=
  "#include <stdint.h>\n" ++
  "#include <string.h>\n" ++
  "#include <stdbool.h>\n" ++
  "#define " ++ modPfx ++ moduleName ++ dotSep ++ "__name__ \"" ++
    dunderName ++ "\"\n\n"

/-- The registration loop of `ModuleCompiler.compile`: every top-level
function definition is stored in the shared `globals` dict before any
function body is compiled.  Nothing else is pre-declared there. -/
def registerFns (g : List (String × Binding)) : List Stmt →
    List (String × Binding)
  | [] => g
  | .funcDef n args ret body _ :: rest =>
    registerFns (dictInsert g n (.funcB n args ret body)) rest
  | _ :: rest => registerFns g rest

/-- The function-compiler loop of `ModuleCompiler.compile`: compile each
top-level function definition in order, each followed by a newline. -/
def compileFns (fuel : Nat) (env : Env) : List Stmt → Except Err String
  | [] => Except.ok ""
  | .funcDef n args ret body dec :: rest => do
    let f ← fcCompile fuel env (.funcN n args ret body dec)
    let r ← compileFns fuel env rest
    Except.ok (f ++ "\n" ++ r)
  | _ :: rest => compileFns fuel env rest

/-- The `try`/`except CompileError` wrapper of `ModuleCompiler.compile`: a
`CompileError` message is prefixed with the source filename; every other
exception passes through untouched. -/
def tagFilenameCE (filename : String) : Except Err String → Except Err String
  | Except.error (Err.compileError m) =>
    Except.error (Err.compileError (filename ++ ":" ++ m))
  | r => r

/-- `ModuleCompiler.compile`.  `files` models the filesystem `open()` sees:
whether a module file of a given name exists (its contents never matter,
because the line after a successful parse appends to the undefined
identifier `imported_modules` and therefore raises `NameError`; a missing
file raises the IO error of `open`).  The walk for imports runs before
anything is emitted, so a module containing any `import` statement never
produces output.  When there is no import: `__name__` is declared as a
string global, the top-level function definitions are registered in the
shared `globals`, the module init function is compiled from the whole
module body, and each function is compiled against the same `globals`. -/
def moduleCompile (fuel : Nat) (files : String → Bool)
    (moduleName sourceFilename dunderName : String) (body : List Stmt) :
    Except Err String :=
  let globals0 := dictInsert [] "__name__" (Binding.annB "" (.name "str") none)
  match firstImport fuel body with
  | some a =>
    let asname := a.asname.getD a.name
    if dictContains globals0 asname then
      Except.error (Err.compileError
        ("cannot import `" ++ asname ++ "` multiple times"))
    else
      let filename := replaceDots a.name ++ ".py"
      if files filename then Except.error (Err.nameError "imported_modules")
      else Except.error (Err.ioError filename)
  | none =>
    let globals := registerFns globals0 body
    let env : Env := ⟨moduleName, globals⟩
    match tagFilenameCE sourceFilename (do
      let top ← fcCompile fuel env (.moduleN body)
      let fns ← compileFns fuel env body
      Except.ok (top ++ "\n" ++ fns)) with
    | Except.error e => Except.error e
    | Except.ok s => Except.ok (initialModuleSource moduleName dunderName ++ s)

/-- A filesystem with no module files on it. -/
def noFiles : String → Bool := fun _ => false

/-- Compile one module named `m` from file `m.py` as the program entry
module (`__name__` set to `__main__`), with ample fuel — the standard
driver configuration for a single input module. -/
def compileM (body : List Stmt) : Except Err String :=
  moduleCompile 1000 noFiles "m" "m.py" "__main__" body

/-- The module scope every expression-level statement below runs in: the
`ModuleCompiler.globals` of a module named `m` right after construction,
holding only the synthetic `__name__` string declaration. -/
def envM : Env :=
  ⟨"m", dictInsert [] "__name__" (Binding.annB "" (.name "str") none)⟩

/- Claim theorems. -/

/-- Claim C1: the program `x: int = 1` followed by `if x == 1: x = 2` does
NOT compile: the reassignment `x = 2` raises a `CompileError`, because
`visit_Assign` compares the value stored in `locals` (the `ast.AnnAssign`
node of the declaration) against the type-name string `int`, a comparison
that is false for every node object, so the incompatible-assignment branch
always fires.  The claim says compilation succeeds; the code contradicts
the scenario its own comments intend to support. -/
theorem c1_scenario_a_raises_compile_error :
    compileM
      [.annAssign "x" (.name "int") (some (.num "1")),
       .ifS (.compare (.name "x") (.eq, .num "1") [])
         [.assign (.nameT "x") [] (.num "2")] []] =
      Except.error (Err.compileError
        ("m.py:assignment of int to incompatible " ++
          "<_ast.AnnAssign object> var x")) := by
  rfl

/-- Claim C2: declaring the same name twice in one scope does NOT fail with
a `CompileError`: the raise site spells the exception class
`CompilerError`, an identifier that does not exist, so Python raises
`NameError` instead of the intended duplicate-declaration compile error. -/
theorem c2_duplicate_declaration_raises_name_error :
    compileM
      [.annAssign "x" (.name "int") (some (.num "1")),
       .annAssign "x" (.name "int") (some (.num "2"))] =
      Except.error (Err.nameError "CompilerError") := by
  rfl

/-- Claim C3 counterexample: a comparison between two string-typed operands
whose left operand is a string literal does not lower to a `strcmp` test at
all — `visit_Compare` starts by resolving its left operand through
`_load_name`, which only accepts name nodes, so `"ab" == "cd"` raises the
unable-to-resolve `CompileError` instead of producing the three-way-compare
lowering the claim promises for every string comparison. -/
theorem c3_literal_left_operand_cex :
    compileM [.exprS (.compare (.str "ab") (.eq, .str "cd") [])] =
      Except.error (Err.compileError
        ("m.py:unable to resolve reference from node " ++
          "<_ast.Str object>")) := by
  rfl

/-- Claim C3 (amended): for a comparison whose LEFT operand is a declared
name of string type, against a string-typed comparator, the lowering is
`strcmp` of the two operands tested against a literal — `== 0` for
equality, `!= 0` for inequality, `== -1` for less-than, `== 1` for
greater-than — and a string comparison with more than one comparator fails
with the exactly-two-items `CompileError`, for every operator and every
declared string contents. -/
theorem c3_strcmp_lowering (op : CmpOp) (v w : String) :
    visitExpr 100 envM
      [("s", .annB "s" (.name "str") (some (.str v))),
       ("t", .annB "t" (.name "str") (some (.str w)))]
      (.compare (.name "s") (op, .name "t") []) =
      Except.ok ("strcmp(s, t) " ++
        (match op with
         | .eq => "== 0"
         | .ne => "!= 0"
         | .lt => "== -1"
         | .gt => "== 1")) ∧
    visitExpr 100 envM
      [("s", .annB "s" (.name "str") (some (.str v))),
       ("t", .annB "t" (.name "str") (some (.str w)))]
      (.compare (.name "s") (op, .name "t") [(.eq, .name "t")]) =
      Except.error (Err.compileError
        "string comparisons must be of exactly two items") := by
  cases op <;> exact ⟨rfl, rfl⟩

/-- Claim C3 witness: the amended lowering at the equality operator with
concrete declared strings. -/
theorem c3_strcmp_lowering_witness :
    visitExpr 100 envM
      [("s", .annB "s" (.name "str") (some (.str "ab"))),
       ("t", .annB "t" (.name "str") (some (.str "cd")))]
      (.compare (.name "s") (.eq, .name "t") []) =
      Except.ok "strcmp(s, t) == 0" ∧
    visitExpr 100 envM
      [("s", .annB "s" (.name "str") (some (.str "ab"))),
       ("t", .annB "t" (.name "str") (some (.str "cd")))]
      (.compare (.name "s") (.eq, .name "t") [(.eq, .name "t")]) =
      Except.error (Err.compileError
        "string comparisons must be of exactly two items") :=
  c3_strcmp_lowering .eq "ab" "cd"

/-- Claim C4: a reference to an undeclared name as a bare name expression
does NOT fail with a `CompileError`: `visit_Name` calls `_load_name`
without a handler, so the internal `LookupError` escapes the compiler
(only the call-callee path converts it into the unknown-function
`CompileError`, as the second conjunct shows). -/
theorem c4_bare_name_lookup_error_escapes :
    compileM [.exprS (.name "y")] =
      Except.error (Err.lookupError "no such var `y`") ∧
    compileM [.exprS (.call (.name "q") [])] =
      Except.error (Err.compileError
        "m.py:reference to unknown function `q`") := by
  exact ⟨rfl, rfl⟩

/-- Claim C5 counterexample: a module-level variable declaration is NOT
pre-declared in the shared module scope — it is stored only in the
init-function compiler's private `locals` — so a function body referencing
a module-level declared variable fails to resolve (and the failure is an
escaping `LookupError`), contradicting the claim that such a function
compiles successfully. -/
theorem c5_module_var_not_shared_cex :
    compileM
      [.annAssign "x" (.name "int") (some (.num "1")),
       .funcDef "f" [] (some (.name "int"))
         [.retS (some (.name "x"))] false] =
      Except.error (Err.lookupError "no such var `x`") := by
  rfl

/-- Claim C5 (amended): the shared flat module scope is pre-populated, ahead
of body emission, with `__name__` and the module's top-level function
definitions only; module-level variable declarations live in the init
function's own locals and are invisible to other functions (first
conjunct), while functions do resolve other functions of the same module
through the shared scope under the `PYMOD_<module>_DOT_` mangling (second
conjunct). -/
theorem c5_module_scope_functions_only :
    compileM
      [.annAssign "x" (.name "int") (some (.num "1")),
       .funcDef "f" [] (some (.name "int"))
         [.retS (some (.name "x"))] false] =
      Except.error (Err.lookupError "no such var `x`") ∧
    compileM
      [.funcDef "g" [] none [.passS] false,
       .funcDef "f" [] none [.exprS (.call (.name "g") [])] false] =
      Except.ok
        ("#include <stdint.h>\n#include <string.h>\n#include <stdbool.h>\n" ++
         "#define PYMOD_m_DOT___name__ \"__main__\"\n\n" ++
         "int32_t PYMOD_m_INIT() \x7b\n\x7d\n\n" ++
         "void PYMOD_m_DOT_g() \x7b\n\x7d\n\n" ++
         "void PYMOD_m_DOT_f() \x7b\nPYMOD_m_DOT_g();\n\x7d\n\n") := by
  exact ⟨rfl, rfl⟩

/-- Claim C6: compiling an `import` of the registry module `print` never
contributes "no text" — it never succeeds at all.  The import walk of
`ModuleCompiler.compile` treats every import as a user module load: it
opens `print.py` (an IO error when the file is absent) and, when the file
exists, the next line appends to the undefined identifier
`imported_modules`, raising `NameError` — under every filesystem the
compilation of the module aborts with a non-`CompileError` exception.  The
bound builtin symbol is reachable WITHOUT any import: a bare call of
`print` compiles to a direct call of `printf` (second conjunct). -/
theorem c6_import_always_fails :
    moduleCompile 1000 noFiles "m" "m.py" "__main__"
      [.impS [⟨"print", none⟩],
       .exprS (.call (.name "print") [.str "hi"])] =
      Except.error (Err.ioError "print.py") ∧
    moduleCompile 1000 (fun _ => true) "m" "m.py" "__main__"
      [.impS [⟨"print", none⟩],
       .exprS (.call (.name "print") [.str "hi"])] =
      Except.error (Err.nameError "imported_modules") ∧
    compileM [.exprS (.call (.name "print") [.str "hi"])] =
      Except.ok
        ("#include <stdint.h>\n#include <string.h>\n#include <stdbool.h>\n" ++
         "#define PYMOD_m_DOT___name__ \"__main__\"\n\n" ++
         "int32_t PYMOD_m_INIT() \x7b\n" ++
         "printf((const char[])\x7b0x68, 0x69, 0x0\x7d);\n" ++
         "\x7d\n\n") := by
  exact ⟨rfl, rfl, rfl⟩

/-- Claim C7: `pass` emits no marker at all — `visit_Pass` returns Python
`None`.  At the top level of a body the `None` is silently skipped (a
module whose body is a single `pass` compiles exactly like an empty
module, second conjunct), and inside an `if` body the string concatenation
`body_src += None` of `visit_If` raises `TypeError`, so Scenario B
(`s: str = "ab"` then `if s == "cd": pass`) crashes instead of compiling
(first conjunct). -/
theorem c7_pass_in_if_body_raises_type_error :
    compileM
      [.annAssign "s" (.name "str") (some (.str "ab")),
       .ifS (.compare (.name "s") (.eq, .str "cd") []) [.passS] []] =
      Except.error (Err.typeError "must be str, not NoneType") ∧
    compileM [.passS] = compileM [] := by
  exact ⟨rfl, rfl⟩

/-- Claim C8 counterexample: a string literal in plain-reassignment value
position is never lowered at all: `s: str = "ab"` followed by `s = "cd"`
aborts with the incompatible-assignment `CompileError` (the stored
`locals` value is the `ast.AnnAssign` node, never equal to the type-name
string `str`), contradicting the claim that every string literal position
lowers to the byte-sequence form. -/
theorem c8_string_reassignment_cex :
    compileM
      [.annAssign "s" (.name "str") (some (.str "ab")),
       .assign (.nameT "s") [] (.str "cd")] =
      Except.error (Err.compileError
        ("m.py:assignment of str to incompatible " ++
          "<_ast.AnnAssign object> var `s`")) := by
  rfl

/-- Claim C8 (amended): string literals lower to the explicit byte sequence
plus terminating zero byte in expression position (first conjunct) and in
annotated-declaration initializer position (second conjunct); a plain
reassignment of a string literal never reaches emission — its type check
always fails (third conjunct) — and the emission line it would reach in the
source formats a native quoted literal, not the byte-sequence form. -/
theorem c8_string_literal_lowering :
    visitExpr 100 envM [] (.str "ab") =
      Except.ok "(const char[])\x7b0x61, 0x62, 0x0\x7d" ∧
    visitStmt 100 envM (.moduleN []) []
      (.annAssign "s" (.name "str") (some (.str "ab"))) =
      Except.ok (some "char* s = (const char[])\x7b0x61, 0x62, 0x0\x7d;",
        [("s", .annB "s" (.name "str") (some (.str "ab")))]) ∧
    compileM
      [.annAssign "s" (.name "str") (some (.str "ab")),
       .assign (.nameT "s") [] (.str "cd")] =
      Except.error (Err.compileError
        ("m.py:assignment of str to incompatible " ++
          "<_ast.AnnAssign object> var `s`")) := by
  exact ⟨rfl, rfl, rfl⟩

/-- Claim C9: type inference maps every numeric literal to `int` (first
conjunct), so the annotated declaration `x: int = v` passes its
declaration-time type check for every numeric literal text `v` — including
non-integral literals such as `1.5` — and emits it as the initializer of
an `int32_t` declaration (second conjunct); a non-integral literal is
rejected on plain reassignment with a `CompileError` (third conjunct), not
on annotated declaration. -/
theorem c9_numeric_literal_int_inference (n : String) :
    pytypeE 100 envM [] (.num n) = Except.ok (some "int") ∧
    visitStmt 100 envM (.moduleN []) []
      (.annAssign "x" (.name "int") (some (.num n))) =
      Except.ok (some ("int32_t x = " ++ n ++ ";"),
        [("x", .annB "x" (.name "int") (some (.num n)))]) ∧
    visitStmt 100 envM (.moduleN [])
      [("x", .annB "x" (.name "int") (some (.num "1")))]
      (.assign (.nameT "x") [] (.num "1.5")) =
      Except.error (Err.compileError
        ("assignment of int to incompatible " ++
          "<_ast.AnnAssign object> var x")) := by
  exact ⟨rfl, rfl, rfl⟩

/-- Claim C9 witness: the non-integral literal `1.5` accepted and emitted
by an annotated int declaration. -/
theorem c9_numeric_literal_witness :
    pytypeE 100 envM [] (.num "1.5") = Except.ok (some "int") ∧
    visitStmt 100 envM (.moduleN []) []
      (.annAssign "x" (.name "int") (some (.num "1.5"))) =
      Except.ok (some ("int32_t x = " ++ "1.5" ++ ";"),
        [("x", .annB "x" (.name "int") (some (.num "1.5")))]) ∧
    visitStmt 100 envM (.moduleN [])
      [("x", .annB "x" (.name "int") (some (.num "1")))]
      (.assign (.nameT "x") [] (.num "1.5")) =
      Except.error (Err.compileError
        ("assignment of int to incompatible " ++
          "<_ast.AnnAssign object> var x")) :=
  c9_numeric_literal_int_inference "1.5"

/-- Claim C10 counterexample: a function without a return-type annotation
whose body holds a return statement does NOT fail with an error naming the
missing annotation: the body is compiled before `_fn_ret_ctype` runs, so
`visit_Return` raises its own type-mismatch `CompileError` first (with the
inferred `None` return type on the left of the message). -/
theorem c10_return_error_is_mismatch_cex :
    compileM
      [.funcDef "f" [] none [.retS (some (.num "5"))] false] =
      Except.error (Err.compileError
        ("m.py:cannot return type `None` from function with return type " ++
          "`int`")) := by
  rfl

/-- Claim C10 (amended): a function with no return-type annotation and no
return statement anywhere in its body compiles with target return type
`void` (first conjunct); when a return statement is present — directly or
inside a nested block — compilation fails, but with the return statement's
own type-mismatch `CompileError` raised during body emission (second and
third conjuncts), so the missing-return-type-annotation diagnostic of
`_fn_ret_ctype` is not the error surfaced. -/
theorem c10_unannotated_function_void :
    compileM [.funcDef "f" [] none [.passS] false] =
      Except.ok
        ("#include <stdint.h>\n#include <string.h>\n#include <stdbool.h>\n" ++
         "#define PYMOD_m_DOT___name__ \"__main__\"\n\n" ++
         "int32_t PYMOD_m_INIT() \x7b\n\x7d\n\n" ++
         "void PYMOD_m_DOT_f() \x7b\n\x7d\n\n") ∧
    compileM [.funcDef "f" [] none [.retS (some (.num "5"))] false] =
      Except.error (Err.compileError
        ("m.py:cannot return type `None` from function with return type " ++
          "`int`")) ∧
    compileM
      [.funcDef "g" [] none
        [.ifS (.nameConst (some true)) [.retS (some (.num "1"))] []] false] =
      Except.error (Err.compileError
        ("m.py:cannot return type `None` from function with return type " ++
          "`int`")) := by
  exact ⟨rfl, rfl, rfl⟩

end Pyc
